import Mathlib

/-!
Shallow embedding of the Account & Session Lifecycle Engine of the
user-management-service repository: the five gRPC handlers of
`pkg/service/api_auth.go` (LoginWithEmail, SignupWithEmail,
CheckRefreshToken, TokenRefreshed, SwitchProfile) and the timer job
`CleanUpUnverifiedUsers` of the timer_event package.

External collaborator outcomes (UserStore lookups/updates, password
hashing results) are passed in explicitly as environment values, matching
how the handlers consume them through the `userDBservice` / `pwhash`
interfaces.  Methods of `models.User` (AddRefreshToken,
RemoveRefreshToken, FindProfile, AddNewEmail) and the helpers of the
`utils` package are repository code not present under src/; they are
modelled from the spec and carry a `Modelled from the spec:` doc comment.
`User.ToAPI` (also absent) is a field-preserving conversion to wire
types; the embedding reads the fields of the `User` record directly.
-/

/-- gRPC status codes used by the handlers (`google.golang.org/grpc/codes`). -/
inductive Code where
  | invalidArgument
  | internal
  | unimplemented
deriving DecidableEq, Repr

/-- A `status.Error(code, msg)` value as returned by the handlers. -/
structure StatusError where
  code : Code
  msg : String
deriving DecidableEq, Repr

/-- Outcome of a Go handler body: a returned value, a returned error, or a
runtime panic (e.g. an out-of-bounds slice index). -/
inductive GoResult (α : Type) where
  | ok (a : α)
  | err (e : StatusError)
  | panicked
deriving DecidableEq, Repr

/-- `models.Profile`: one participant identity under an account. -/
structure Profile where
  id : String
  nickname : String
  consentConfirmedAt : Int
  avatarId : String
deriving DecidableEq, Repr, Inhabited

/-- The `Account` sub-record of `models.User`. -/
structure Account where
  type : String
  accountID : String
  accountConfirmedAt : Int
  password : String
  preferredLanguage : String
deriving DecidableEq, Repr, Inhabited

/-- A contact channel entry (`models.ContactInfo`). -/
structure ContactInfo where
  id : String
  email : String
  confirmed : Bool
deriving DecidableEq, Repr, Inhabited

/-- Newsletter subscription flags (`models.ContactPreferences`). -/
structure ContactPreferences where
  subscribedToNewsletter : Bool
  sendNewsletterTo : List String
deriving DecidableEq, Repr, Inhabited

/-- The timestamps block of `models.User`. -/
structure Timestamps where
  createdAt : Int
  lastLogin : Int
  lastTokenRefresh : Int
deriving DecidableEq, Repr, Inhabited

/-- `models.User`: the AccountRecord of the spec, one per tenant user. -/
structure User where
  id : String
  account : Account
  roles : List String
  profiles : List Profile
  contactInfos : List ContactInfo
  contactPreferences : ContactPreferences
  refreshTokens : List String
  timestamps : Timestamps
deriving DecidableEq, Repr, Inhabited

/-- Modelled from the spec: `models.User.AddRefreshToken` (not under src/).
Spec §3/§4.4: `refreshTokens` is a set of opaque token strings, uniqueness
within the account is required, `issue` appends the token rejecting
duplicates. Adding an already-present token leaves the set unchanged. -/
def User.AddRefreshToken (u : User) (t : String) : User :=
  if u.refreshTokens.contains t then u
  else { u with refreshTokens := u.refreshTokens ++ [t] }

/-- Modelled from the spec: `models.User.RemoveRefreshToken` (not under
src/). Spec §4.4: `revoke` removes the token from `refreshTokens` and
fails with `TokenNotFound` if absent; set semantics, so after a
successful removal the token is no longer a member. -/
def User.RemoveRefreshToken (u : User) (t : String) : Except String User :=
  if u.refreshTokens.contains t then
    .ok { u with refreshTokens := u.refreshTokens.filter (fun x => x != t) }
  else .error "token not found"

/-- Modelled from the spec: `models.User.FindProfile` (not under src/).
Spec §4.5: returns the profile matching the requested profile id, fails
with `ProfileNotFound` when no profile has that id. -/
def User.FindProfile (u : User) (pid : String) : Option Profile :=
  u.profiles.find? (fun p => p.id == pid)

/-- Modelled from the spec: `models.User.AddNewEmail` (not under src/).
Spec §4.3: registers the login identifier as a contact channel
(unverified). The fresh ObjectID the Go method generates is passed in as
`newId`. -/
def User.AddNewEmail (u : User) (email : String) (confirmed : Bool)
    (newId : String) : User :=
  { u with contactInfos :=
      u.contactInfos ++ [{ id := newId, email := email, confirmed := confirmed }] }

/-- Modelled from the spec: `utils.CheckEmailFormat` (not under src/).
Spec §4.3: a syntactic email-shape check on the login identifier. -/
def checkEmailFormat (e : String) : Bool :=
  let cs := e.toList
  let localPart := cs.takeWhile (fun c => c != '@')
  match cs.dropWhile (fun c => c != '@') with
  | '@' :: domain =>
      localPart != [] && domain != [] && !(domain.contains '@') &&
        domain.contains '.' && domain.head? != some '.' && domain.getLast? != some '.'
  | _ => false

/-- Modelled from the spec: `utils.CheckPasswordFormat` (not under src/).
Spec §4.3: a minimum length/character-class password strength policy. -/
def checkPasswordFormat (p : String) : Bool :=
  p.length ≥ 8 && p.toList.any Char.isAlpha && p.toList.any Char.isDigit

/-- The display-identifier computation shared by LoginWithEmail
(api_auth.go:47-50) and SignupWithEmail (api_auth.go:125-128): the login
identifier is exposed only when the account has more than one role, or
exactly one role different from PARTICIPANT; otherwise the empty string. -/
def displayName (u : User) : String :=
  if u.roles.length > 1 || (u.roles.length == 1 && u.roles.getD 0 "" != "PARTICIPANT")
  then u.account.accountID
  else ""

/-- The `api.UserAuthInfo` response (the spec's SessionInfo). -/
structure UserAuthInfo where
  userId : String
  roles : List String
  instanceId : String
  accountId : String
  accountConfirmed : Bool
  profiles : List Profile
  selectedProfile : Profile
  preferredLanguage : String
deriving DecidableEq, Repr

/-- The `api.ServiceStatus` response. -/
structure ServiceStatus where
  status : String
  msg : String
deriving DecidableEq, Repr

/-- `api.LoginWithEmailMsg`. -/
structure LoginWithEmailMsg where
  email : String
  password : String
  instanceId : String
deriving DecidableEq, Repr

/-- The collaborator outcomes LoginWithEmail consumes: the
`GetUserByEmail` lookup (`none` models any store error, including an
unknown identifier), the `pwhash.ComparePasswordWithHash` outcome, and
the `UpdateLoginTime` persistence outcome. -/
structure LoginEnv where
  lookup : Option User
  pwErr : Bool
  pwMatch : Bool
  updateLoginOk : Bool
  updateErrMsg : String

/-- The error value `status.Error(codes.InvalidArgument, "invalid username
and/or password")` returned on every credential failure path. -/
def invalidCredentialsError : StatusError :=
  { code := .invalidArgument, msg := "invalid username and/or password" }

/-- `LoginWithEmail` (api_auth.go:23-66). The second component records
whether the `UpdateLoginTime` store write was performed. -/
def loginWithEmail (req : LoginWithEmailMsg) (env : LoginEnv) :
    GoResult UserAuthInfo × Bool :=
  if req.email = "" ∨ req.password = "" then
    (.err invalidCredentialsError, false)
  else
    let instanceID := if req.instanceId = "" then "default" else req.instanceId
    match env.lookup with
    | none => (.err invalidCredentialsError, false)
    | some user =>
      if env.pwErr || !env.pwMatch then
        (.err invalidCredentialsError, false)
      else if !env.updateLoginOk then
        (.err { code := .invalidArgument, msg := env.updateErrMsg }, true)
      else
        match user.profiles with
        | [] => (.panicked, true)
        | p0 :: _ =>
          (.ok { userId := user.id
                 roles := user.roles
                 instanceId := instanceID
                 accountId := displayName user
                 accountConfirmed := user.account.accountConfirmedAt > 0
                 profiles := user.profiles
                 selectedProfile := p0
                 preferredLanguage := user.account.preferredLanguage }, true)

/-- `api.SignupWithEmailMsg`. -/
structure SignupWithEmailMsg where
  email : String
  password : String
  instanceId : String
  preferredLanguage : String
  wantsNewsletter : Bool
deriving DecidableEq, Repr

/-- The collaborator outcomes SignupWithEmail consumes: the
`pwhash.HashPassword` result (`none` models a hashing failure), the
fresh ObjectIDs minted for the default profile and the contact entry,
and the `AddUser` store outcome (`none` models an insert failure,
`some id` the id the store assigned). -/
structure SignupEnv where
  hashResult : Option String
  hashErrMsg : String
  newProfileId : String
  newContactId : String
  addUserResult : Option String
  addErrMsg : String

/-- The `models.User` record SignupWithEmail builds (api_auth.go:85-108):
the literal at lines 85-102, then `AddNewEmail`, then the newsletter
preference targeting the first contact entry. -/
def signupNewUser (req : SignupWithEmailMsg) (digest : String) (env : SignupEnv)
    (now : Int) : User :=
  let baseUser : User :=
    { id := ""
      account :=
        { type := "email"
          accountID := req.email
          accountConfirmedAt := 0
          password := digest
          preferredLanguage := req.preferredLanguage }
      roles := ["PARTICIPANT"]
      profiles :=
        [{ id := env.newProfileId
           nickname := req.email
           consentConfirmedAt := now
           avatarId := "default" }]
      contactInfos := []
      contactPreferences := { subscribedToNewsletter := false, sendNewsletterTo := [] }
      refreshTokens := []
      timestamps := { createdAt := 0, lastLogin := 0, lastTokenRefresh := 0 } }
  let withEmail := baseUser.AddNewEmail req.email false env.newContactId
  if req.wantsNewsletter then
    { withEmail with contactPreferences :=
        { subscribedToNewsletter := true
          sendNewsletterTo := [((withEmail.contactInfos.getD 0 default).id)] } }
  else withEmail

/-- `SignupWithEmail` (api_auth.go:68-143). `now` is `time.Now().Unix()`.
The second component is the `models.User` record handed to `AddUser`
(`none` when validation or hashing failed before the insert attempt). -/
def signupWithEmail (req : SignupWithEmailMsg) (env : SignupEnv) (now : Int) :
    GoResult UserAuthInfo × Option User :=
  if !(checkEmailFormat req.email) then
    (.err { code := .invalidArgument, msg := "email not valid" }, none)
  else if !(checkPasswordFormat req.password) then
    (.err { code := .invalidArgument, msg := "password too weak" }, none)
  else
    match env.hashResult with
    | none => (.err { code := .internal, msg := env.hashErrMsg }, none)
    | some digest =>
      let newUser := signupNewUser req digest env now
      let instanceID := if req.instanceId = "" then "default" else req.instanceId
      match env.addUserResult with
      | none => (.err { code := .internal, msg := env.addErrMsg }, some newUser)
      | some id =>
        match newUser.profiles with
        | [] => (.panicked, some newUser)
        | p0 :: _ =>
          (.ok { userId := id
                 roles := newUser.roles
                 instanceId := instanceID
                 accountId := displayName newUser
                 accountConfirmed := false
                 profiles := newUser.profiles
                 selectedProfile := p0
                 preferredLanguage := newUser.account.preferredLanguage }, some newUser)

/-- `api.RefreshTokenRequest`. -/
structure RefreshTokenRequest where
  refreshToken : String
  userId : String
  instanceId : String
deriving DecidableEq, Repr

/-- `CheckRefreshToken` (api_auth.go:145-169): the spec's `revoke`
operation. `lookup` is the `GetUserByID` outcome, `updateOk`/`updateErrMsg`
the `UpdateUser` outcome, `now` is `time.Now().Unix()`. The second
component is the user record handed to `UpdateUser` (`none` when the
handler returned before reaching the store write). -/
def checkRefreshToken (req : RefreshTokenRequest) (lookup : Option User)
    (updateOk : Bool) (updateErrMsg : String) (now : Int) :
    GoResult ServiceStatus × Option User :=
  if req.refreshToken = "" ∨ req.userId = "" ∨ req.instanceId = "" then
    (.err { code := .invalidArgument, msg := "missing argument" }, none)
  else
    match lookup with
    | none => (.err { code := .internal, msg := "user not found" }, none)
    | some user =>
      match user.RemoveRefreshToken req.refreshToken with
      | .error _ => (.err { code := .internal, msg := "token not found" }, none)
      | .ok u1 =>
        let u2 := { u1 with timestamps := { u1.timestamps with lastTokenRefresh := now } }
        if updateOk then
          (.ok { status := "NORMAL", msg := "refresh token removed" }, some u2)
        else
          (.err { code := .internal, msg := updateErrMsg }, some u2)

/-- `TokenRefreshed` (api_auth.go:171-192): the spec's `issue` operation.
Parameters as in `checkRefreshToken`. -/
def tokenRefreshed (req : RefreshTokenRequest) (lookup : Option User)
    (updateOk : Bool) (updateErrMsg : String) (now : Int) :
    GoResult ServiceStatus × Option User :=
  if req.refreshToken = "" ∨ req.userId = "" ∨ req.instanceId = "" then
    (.err { code := .invalidArgument, msg := "missing argument" }, none)
  else
    match lookup with
    | none => (.err { code := .internal, msg := "user not found" }, none)
    | some user =>
      let u1 := user.AddRefreshToken req.refreshToken
      let u2 := { u1 with timestamps := { u1.timestamps with lastTokenRefresh := now } }
      if updateOk then
        (.ok { status := "NORMAL", msg := "token refresh time updated" }, some u2)
      else
        (.err { code := .internal, msg := updateErrMsg }, some u2)

/-- `api.ProfileRequest`: the token carries the instance id and the user
id; `profile` is `none` when `req.Profile` is nil, otherwise the
requested profile id. -/
structure ProfileRequest where
  tokenInstanceId : String
  tokenId : String
  profile : Option String
deriving DecidableEq, Repr

/-- `SwitchProfile` (api_auth.go:194-221): the spec's `selectProfile`.
`utils.IsTokenEmpty` (not under src/) is modelled as the token's user id
being empty. The second component records any store write: the handler
never calls the store's update, so it is `none` on every path. -/
def switchProfile (req : ProfileRequest) (lookup : Option User) :
    GoResult UserAuthInfo × Option User :=
  if req.tokenId = "" ∨ req.profile = none then
    (.err { code := .invalidArgument, msg := "missing argument" }, none)
  else
    match lookup with
    | none => (.err { code := .internal, msg := "user not found" }, none)
    | some user =>
      match user.FindProfile (req.profile.getD "") with
      | none => (.err { code := .internal, msg := "profile not found" }, none)
      | some profile =>
        (.ok { userId := user.id
               roles := user.roles
               instanceId := req.tokenInstanceId
               accountConfirmed := user.account.accountConfirmedAt > 0
               accountId := user.account.accountID
               profiles := user.profiles
               selectedProfile := profile
               preferredLanguage := user.account.preferredLanguage }, none)

/-- The deletion predicate of the sweep: unconfirmed and created before
the cutoff epoch (spec §4.6; the cutoff passed by the timer job is
`time.Now().Unix() - CleanUpTimeThreshold`). -/
def expiredAccount (cutoff : Int) (u : User) : Bool :=
  u.account.accountConfirmedAt == 0 && decide (u.timestamps.createdAt < cutoff)

/-- Modelled from the spec: `userDBService.DeleteUnverfiedUsers` (not
under src/), the spec's `deleteUnconfirmedOlderThan(tenant, cutoffEpoch)`:
deletes every account of the tenant that is unconfirmed and older than
the cutoff, returning the remaining accounts and the deleted count. -/
def deleteUnverifiedUsers (users : List User) (cutoff : Int) : List User × Nat :=
  (users.filter (fun u => !(expiredAccount cutoff u)),
   (users.filter (expiredAccount cutoff)).length)

/-- `CleanUpUnverifiedUsers` (timer_event, src/unnamed/part_000:8-23),
one pass over the enumerated instances. The store maps a tenant id to
its stored accounts; `failing t = true` models the per-tenant
`DeleteUnverfiedUsers` call returning an error (the loop logs and
continues). Returns the store after the sweep and, in instance order,
one log entry per delete call: the tenant id with `some count` on
success and `none` on failure. -/
def sweepRun (instances : List String) (failing : String → Bool) (cutoff : Int)
    (store : String → List User) :
    (String → List User) × List (String × Option Nat) :=
  match instances with
  | [] => (store, [])
  | inst :: rest =>
    if failing inst then
      let r := sweepRun rest failing cutoff store
      (r.1, (inst, none) :: r.2)
    else
      let d := deleteUnverifiedUsers (store inst) cutoff
      let store1 := fun t => if t = inst then d.1 else store t
      let r := sweepRun rest failing cutoff store1
      (r.1, (inst, some d.2) :: r.2)

/-- `CleanUpUnverifiedUsers` with the cutoff computed as in the source:
`time.Now().Unix() - s.CleanUpTimeThreshold`. -/
def cleanUpUnverifiedUsers (instances : List String) (failing : String → Bool)
    (now threshold : Int) (store : String → List User) :
    (String → List User) × List (String × Option Nat) :=
  sweepRun instances failing (now - threshold) store

/-- An abstract issue/revoke operation on an account's token set, for the
sequence-invariant part of the token-uniqueness property. -/
inductive TokenOp where
  | issue (t : String)
  | revoke (t : String)

/-- Apply one issue/revoke operation to the account record, a failed
revoke leaving the record unchanged (the handler returns before any
mutation in that case). -/
def applyTokenOp (u : User) (op : TokenOp) : User :=
  match op with
  | .issue t => u.AddRefreshToken t
  | .revoke t =>
    match u.RemoveRefreshToken t with
    | .ok u1 => u1
    | .error _ => u

/-- Apply a sequence of issue/revoke operations in order. -/
def applyTokenOps (u : User) (ops : List TokenOp) : User :=
  ops.foldl applyTokenOp u

/-- Sample participant account used by the concrete witnesses. -/
def sampleProfile : Profile :=
  { id := "p1", nickname := "a@x.com", consentConfirmedAt := 5, avatarId := "default" }

/-- Sample account with the sole PARTICIPANT role and one profile. -/
def sampleUser : User :=
  { id := "u1"
    account :=
      { type := "email", accountID := "a@x.com", accountConfirmedAt := 0
        password := "digest", preferredLanguage := "en" }
    roles := ["PARTICIPANT"]
    profiles := [sampleProfile]
    contactInfos := []
    contactPreferences := { subscribedToNewsletter := false, sendNewsletterTo := [] }
    refreshTokens := []
    timestamps := { createdAt := 0, lastLogin := 0, lastTokenRefresh := 0 } }

lemma addRefreshToken_nodup (u : User) (t : String) (h : u.refreshTokens.Nodup) :
    (u.AddRefreshToken t).refreshTokens.Nodup := by
  unfold User.AddRefreshToken
  split
  · exact h
  · rename_i hc
    have ht : t ∉ u.refreshTokens := by simpa using hc
    simp [List.nodup_append, h, ht]

lemma addRefreshToken_count (u : User) (t : String) (h : u.refreshTokens.Nodup) :
    (u.AddRefreshToken t).refreshTokens.count t = 1 := by
  unfold User.AddRefreshToken
  split
  · rename_i hc
    have ht : t ∈ u.refreshTokens := by simpa using hc
    exact List.count_eq_one_of_mem h ht
  · rename_i hc
    have ht : t ∉ u.refreshTokens := by simpa using hc
    simp [List.count_append, List.count_eq_zero.mpr ht]

lemma removeRefreshToken_ok_tokens (u u1 : User) (t : String)
    (h : u.RemoveRefreshToken t = .ok u1) :
    u1.refreshTokens = u.refreshTokens.filter (fun x => x != t) := by
  unfold User.RemoveRefreshToken at h
  split at h
  · cases h
    rfl
  · cases h

lemma applyTokenOp_nodup (u : User) (op : TokenOp) (h : u.refreshTokens.Nodup) :
    (applyTokenOp u op).refreshTokens.Nodup := by
  cases op with
  | issue t => exact addRefreshToken_nodup u t h
  | revoke t =>
    simp only [applyTokenOp]
    cases hr : u.RemoveRefreshToken t with
    | ok u1 =>
      rw [removeRefreshToken_ok_tokens u u1 t hr]
      exact h.filter _
    | error e => exact h

lemma applyTokenOps_nodup (ops : List TokenOp) (u : User) (h : u.refreshTokens.Nodup) :
    (applyTokenOps u ops).refreshTokens.Nodup := by
  induction ops generalizing u with
  | nil => exact h
  | cons op rest ih =>
    simp only [applyTokenOps, List.foldl_cons] at *
    exact ih _ (applyTokenOp_nodup u op h)

/-- **C1**: issuing the same refresh token twice in succession through
`TokenRefreshed` (the second call seeing the account the first one wrote)
leaves at most one entry equal to that token in the account's
`refreshTokens`; more generally, starting from a duplicate-free token
set, any sequence of issue and revoke operations leaves `refreshTokens`
duplicate-free. -/
theorem c1_refresh_token_no_duplicates (req : RefreshTokenRequest) (u : User)
    (now now2 : Int) (updMsg : String)
    (hnd : u.refreshTokens.Nodup)
    (h1 : req.refreshToken ≠ "") (h2 : req.userId ≠ "") (h3 : req.instanceId ≠ "") :
    (∀ ops : List TokenOp, (applyTokenOps u ops).refreshTokens.Nodup)
    ∧ ∀ u1 u2 : User,
        (tokenRefreshed req (some u) true "" now).2 = some u1 →
        (tokenRefreshed req (some u1) true updMsg now2).2 = some u2 →
        u2.refreshTokens.count req.refreshToken ≤ 1 := by
  constructor
  · intro ops
    exact applyTokenOps_nodup ops u hnd
  · intro u1 u2 e1 e2
    simp only [tokenRefreshed, h1, h2, h3, if_true, if_false, or_self, false_or,
      or_false, if_neg, Option.some.injEq, ite_true, ite_false] at e1 e2
    subst e1
    subst e2
    exact le_of_eq
      (addRefreshToken_count _ req.refreshToken
        (addRefreshToken_nodup u req.refreshToken hnd))

theorem c1_refresh_token_no_duplicates_witness :
    ({ sampleUser with refreshTokens := ["tok"], timestamps := { createdAt := 0, lastLogin := 0, lastTokenRefresh := 2 } } : User).refreshTokens.count "tok" ≤ 1 :=
  (c1_refresh_token_no_duplicates ⟨"tok", "u1", "default"⟩ sampleUser 1 2 ""
      (by decide) (by decide) (by decide) (by decide)).2
    { sampleUser with refreshTokens := ["tok"], timestamps := { createdAt := 0, lastLogin := 0, lastTokenRefresh := 1 } }
    { sampleUser with refreshTokens := ["tok"], timestamps := { createdAt := 0, lastLogin := 0, lastTokenRefresh := 2 } }
    (by decide) (by decide)

lemma filter_ne_contains_false (l : List String) (t : String) :
    (l.filter (fun x => x != t)).contains t = false := by
  simp

/-- **C2**: `CheckRefreshToken` (revoke) fails with the token-not-found
error, performing no store write, exactly when the presented token is not
in the account's `refreshTokens`; and a successful revoke followed by a
second revoke of the same token fails with the token-not-found error and
performs no store write. -/
theorem c2_revoke_token_not_found (req : RefreshTokenRequest) (u : User)
    (updOk : Bool) (updMsg : String) (now now2 : Int)
    (h1 : req.refreshToken ≠ "") (h2 : req.userId ≠ "") (h3 : req.instanceId ≠ "") :
    (((checkRefreshToken req (some u) updOk updMsg now).1
        = .err { code := .internal, msg := "token not found" }
      ∧ (checkRefreshToken req (some u) updOk updMsg now).2 = none)
      ↔ req.refreshToken ∉ u.refreshTokens)
    ∧ ∀ u1 : User,
        (checkRefreshToken req (some u) true "" now).2 = some u1 →
        (checkRefreshToken req (some u1) updOk updMsg now2).1
          = .err { code := .internal, msg := "token not found" }
        ∧ (checkRefreshToken req (some u1) updOk updMsg now2).2 = none := by
  have hcond : ¬(req.refreshToken = "" ∨ req.userId = "" ∨ req.instanceId = "") := by
    simp [h1, h2, h3]
  constructor
  · by_cases hc : u.refreshTokens.contains req.refreshToken
    · have hm : req.refreshToken ∈ u.refreshTokens := by simpa using hc
      simp only [checkRefreshToken, User.RemoveRefreshToken, hcond, if_false, hc,
        if_true, ite_true, ite_false]
      constructor
      · rintro ⟨-, hnone⟩
        cases updOk <;> simp_all
      · intro habs
        exact absurd hm habs
    · have hm : req.refreshToken ∉ u.refreshTokens := by simpa using hc
      simp [checkRefreshToken, User.RemoveRefreshToken, hcond, hc, hm]
  · intro u1 e1
    by_cases hc : u.refreshTokens.contains req.refreshToken
    · simp only [checkRefreshToken, User.RemoveRefreshToken, hcond, if_false, hc,
        if_true, ite_true, ite_false, Option.some.injEq] at e1
      subst e1
      have hc1 : (({ u with refreshTokens :=
          u.refreshTokens.filter (fun x => x != req.refreshToken) } : User).refreshTokens.contains
            req.refreshToken) = false :=
        filter_ne_contains_false u.refreshTokens req.refreshToken
      simp [checkRefreshToken, User.RemoveRefreshToken, hcond, hc1]
    · have hm : req.refreshToken ∉ u.refreshTokens := by simpa using hc
      simp [checkRefreshToken, User.RemoveRefreshToken, hcond, hm] at e1

theorem c2_revoke_token_not_found_witness :
    (checkRefreshToken ⟨"tok", "u1", "default"⟩
        (some { sampleUser with refreshTokens := [], timestamps := { createdAt := 0, lastLogin := 0, lastTokenRefresh := 1 } })
        true "" 2).1
      = .err { code := .internal, msg := "token not found" }
    ∧ (checkRefreshToken ⟨"tok", "u1", "default"⟩
        (some { sampleUser with refreshTokens := [], timestamps := { createdAt := 0, lastLogin := 0, lastTokenRefresh := 1 } })
        true "" 2).2 = none :=
  (c2_revoke_token_not_found ⟨"tok", "u1", "default"⟩
      { sampleUser with refreshTokens := ["tok"] } true "" 1 2
      (by decide) (by decide) (by decide)).2
    { sampleUser with refreshTokens := [], timestamps := { createdAt := 0, lastLogin := 0, lastTokenRefresh := 1 } }
    (by decide)

/-- **C3** counterexample: a plain participant account (role set exactly
PARTICIPANT) routed through SwitchProfile gets its login identifier
"a@x.com" as the display identifier instead of the empty string the
claim requires. -/
theorem c3_display_identifier_counterexample :
    sampleUser.roles = ["PARTICIPANT"]
    ∧ (switchProfile { tokenInstanceId := "inst1", tokenId := "u1", profile := some "p1" }
        (some sampleUser)).1
      = .ok { userId := "u1", roles := ["PARTICIPANT"], instanceId := "inst1"
              accountId := "a@x.com", accountConfirmed := false
              profiles := [sampleProfile], selectedProfile := sampleProfile
              preferredLanguage := "en" }
    ∧ "a@x.com" ≠ "" := by decide

lemma signupNewUser_roles (req : SignupWithEmailMsg) (digest : String)
    (env : SignupEnv) (now : Int) :
    (signupNewUser req digest env now).roles = ["PARTICIPANT"] := by
  by_cases hw : req.wantsNewsletter <;> simp [signupNewUser, User.AddNewEmail, hw]

lemma signupNewUser_profiles (req : SignupWithEmailMsg) (digest : String)
    (env : SignupEnv) (now : Int) :
    (signupNewUser req digest env now).profiles
      = [{ id := env.newProfileId, nickname := req.email
           consentConfirmedAt := now, avatarId := "default" }] := by
  by_cases hw : req.wantsNewsletter <;> simp [signupNewUser, User.AddNewEmail, hw]

lemma signupNewUser_account (req : SignupWithEmailMsg) (digest : String)
    (env : SignupEnv) (now : Int) :
    (signupNewUser req digest env now).account
      = { type := "email", accountID := req.email, accountConfirmedAt := 0
          password := digest, preferredLanguage := req.preferredLanguage } := by
  by_cases hw : req.wantsNewsletter <;> simp [signupNewUser, User.AddNewEmail, hw]

lemma displayName_participant (u : User) (h : u.roles = ["PARTICIPANT"]) :
    displayName u = "" := by
  simp [displayName, h]

/-- **C3** (amended): LoginWithEmail and SignupWithEmail apply the
display-identifier policy (the `AccountId` of the response is the login
identifier when the account holds more than one role or a single
non-PARTICIPANT role, and empty when the role set is exactly
PARTICIPANT); SwitchProfile does not — its response carries the
account's login identifier unconditionally. -/
theorem c3_display_identifier_amended (req : LoginWithEmailMsg) (env : LoginEnv)
    (u : User) (sreq : SignupWithEmailMsg) (senv : SignupEnv) (now : Int)
    (preq : ProfileRequest) (pu : User) :
    (env.lookup = some u →
      ∀ si, (loginWithEmail req env).1 = .ok si → si.accountId = displayName u)
    ∧ (∀ si, (signupWithEmail sreq senv now).1 = .ok si → si.accountId = "")
    ∧ (∀ si, (switchProfile preq (some pu)).1 = .ok si →
        si.accountId = pu.account.accountID)
    ∧ (u.roles = ["PARTICIPANT"] → displayName u = "")
    ∧ (u.roles.length > 1 ∨ (u.roles.length = 1 ∧ u.roles.getD 0 "" ≠ "PARTICIPANT") →
        displayName u = u.account.accountID) := by
  refine ⟨?_, ?_, ?_, ?_, ?_⟩
  · intro hl si hok
    simp only [loginWithEmail, hl] at hok
    split at hok
    · simp at hok
    · split at hok
      · simp at hok
      · split at hok
        · simp at hok
        · split at hok
          · simp at hok
          · simp only [GoResult.ok.injEq] at hok
            rw [← hok]
  · intro si hok
    simp only [signupWithEmail] at hok
    split at hok
    · simp at hok
    · split at hok
      · simp at hok
      · split at hok
        · simp at hok
        · split at hok
          · simp at hok
          · split at hok
            · simp at hok
            · simp only [GoResult.ok.injEq] at hok
              rw [← hok]
              exact displayName_participant _ (signupNewUser_roles _ _ _ _)
  · intro si hok
    simp only [switchProfile] at hok
    split at hok
    · simp at hok
    · split at hok
      · simp at hok
      · simp only [GoResult.ok.injEq] at hok
        rw [← hok]
  · intro h
    simp [displayName, h]
  · intro h
    rcases h with h | ⟨h, h2⟩
    · simp [displayName, h]
    · obtain ⟨r, hr⟩ := List.length_eq_one.mp h
      rw [hr] at h2
      simp only [List.getD, List.get?_cons_zero, Option.getD_some] at h2
      simp [displayName, hr, h2]

theorem c3_display_identifier_amended_witness :
    ({ userId := "u1", roles := ["PARTICIPANT"], instanceId := "inst1"
       accountId := "a@x.com", accountConfirmed := false
       profiles := [sampleProfile], selectedProfile := sampleProfile
       preferredLanguage := "en" } : UserAuthInfo).accountId
      = sampleUser.account.accountID :=
  (c3_display_identifier_amended ⟨"", "", ""⟩ ⟨none, false, false, false, ""⟩
      sampleUser ⟨"", "", "", "", false⟩ ⟨none, "", "", "", none, ""⟩ 0
      ⟨"inst1", "u1", some "p1"⟩ sampleUser).2.2.1
    { userId := "u1", roles := ["PARTICIPANT"], instanceId := "inst1"
      accountId := "a@x.com", accountConfirmed := false
      profiles := [sampleProfile], selectedProfile := sampleProfile
      preferredLanguage := "en" }
    (by decide)

/-- **C5**: an empty login identifier, an empty password, a failed
account lookup (unknown identifier), and a password mismatch for a known
account all make LoginWithEmail return the very same
invalid-credentials error value, and in each of these cases no store
write is performed. -/
theorem c5_uniform_invalid_credentials (req : LoginWithEmailMsg) (env : LoginEnv) :
    (req.email = "" → loginWithEmail req env = (.err invalidCredentialsError, false))
    ∧ (req.password = "" → loginWithEmail req env = (.err invalidCredentialsError, false))
    ∧ (env.lookup = none → loginWithEmail req env = (.err invalidCredentialsError, false))
    ∧ (∀ u, env.lookup = some u → env.pwMatch = false →
        loginWithEmail req env = (.err invalidCredentialsError, false)) := by
  refine ⟨?_, ?_, ?_, ?_⟩
  · intro h
    simp [loginWithEmail, h]
  · intro h
    simp [loginWithEmail, h]
  · intro h
    by_cases he : req.email = "" ∨ req.password = ""
    · simp [loginWithEmail, he]
    · simp [loginWithEmail, he, h]
  · intro u hu hm
    by_cases he : req.email = "" ∨ req.password = ""
    · simp [loginWithEmail, he]
    · simp [loginWithEmail, he, hu, hm]

theorem c5_uniform_invalid_credentials_witness :
    loginWithEmail { email := "a@x.com", password := "wrong", instanceId := "t1" }
        { lookup := some sampleUser, pwErr := false, pwMatch := false
          updateLoginOk := true, updateErrMsg := "" }
      = (.err invalidCredentialsError, false) :=
  (c5_uniform_invalid_credentials
      { email := "a@x.com", password := "wrong", instanceId := "t1" }
      { lookup := some sampleUser, pwErr := false, pwMatch := false
        updateLoginOk := true, updateErrMsg := "" }).2.2.2 sampleUser rfl rfl

/-- **C6** counterexample: with the password verified and the
`UpdateLoginTime` persistence call failing with the message "invalid
username and/or password", LoginWithEmail returns exactly the
invalid-credentials error value (and its status code is
InvalidArgument, not an internal code), so the caller cannot tell the
credential was valid. -/
theorem c6_update_failure_counterexample :
    (loginWithEmail { email := "a@x.com", password := "Str0ngPass1", instanceId := "t1" }
        { lookup := some sampleUser, pwErr := false, pwMatch := true
          updateLoginOk := false, updateErrMsg := "invalid username and/or password" }).1
      = .err invalidCredentialsError
    ∧ invalidCredentialsError.code ≠ Code.internal := by decide

/-- **C6** (amended): when password verification succeeds and the
`UpdateLoginTime` persistence call fails, LoginWithEmail returns a
status error with code InvalidArgument (not an internal code) carrying
the persistence error's message; it differs from the
invalid-credentials error exactly when that message differs from
"invalid username and/or password". -/
theorem c6_update_failure_error_amended (req : LoginWithEmailMsg) (env : LoginEnv)
    (u : User)
    (h1 : req.email ≠ "") (h2 : req.password ≠ "")
    (hl : env.lookup = some u) (he : env.pwErr = false) (hm : env.pwMatch = true)
    (hu : env.updateLoginOk = false) :
    (loginWithEmail req env).1
      = .err { code := .invalidArgument, msg := env.updateErrMsg }
    ∧ ((GoResult.err { code := Code.invalidArgument, msg := env.updateErrMsg }
          : GoResult UserAuthInfo) = .err invalidCredentialsError
        ↔ env.updateErrMsg = "invalid username and/or password") := by
  constructor
  · simp [loginWithEmail, h1, h2, hl, he, hm, hu]
  · simp [invalidCredentialsError]

theorem c6_update_failure_error_amended_witness :
    (loginWithEmail { email := "a@x.com", password := "Str0ngPass1", instanceId := "t1" }
        { lookup := some sampleUser, pwErr := false, pwMatch := true
          updateLoginOk := false, updateErrMsg := "db down" }).1
      = .err { code := .invalidArgument, msg := "db down" }
    ∧ ((GoResult.err { code := Code.invalidArgument, msg := "db down" }
          : GoResult UserAuthInfo) = .err invalidCredentialsError
        ↔ ("db down" : String) = "invalid username and/or password") :=
  c6_update_failure_error_amended
    { email := "a@x.com", password := "Str0ngPass1", instanceId := "t1" }
    { lookup := some sampleUser, pwErr := false, pwMatch := true
      updateLoginOk := false, updateErrMsg := "db down" }
    sampleUser (by decide) (by decide) rfl rfl rfl rfl

/-- **C7**: for a resolved account, SwitchProfile fails with the
profile-not-found error exactly when no profile of the account has the
requested id; on success the selected profile of the response is the
matched profile; and SwitchProfile never performs a store write, on any
input. -/
theorem c7_switch_profile (req : ProfileRequest) (u : User) (pid : String)
    (h1 : req.tokenId ≠ "") (hp : req.profile = some pid) :
    ((switchProfile req (some u)).1
        = .err { code := .internal, msg := "profile not found" }
      ↔ ∀ p ∈ u.profiles, p.id ≠ pid)
    ∧ (∀ si, (switchProfile req (some u)).1 = .ok si →
        u.FindProfile pid = some si.selectedProfile)
    ∧ (∀ r : ProfileRequest, ∀ lk : Option User, (switchProfile r lk).2 = none) := by
  have hcond : ¬(req.tokenId = "" ∨ (some pid : Option String) = none) := by simp [h1]
  refine ⟨?_, ?_, ?_⟩
  · simp only [switchProfile, hp, Option.getD_some, if_neg hcond, User.FindProfile]
    cases hf : u.profiles.find? (fun p => p.id == pid) with
    | none =>
      constructor
      · intro _ p hpm
        have h5 := List.find?_eq_none.mp hf p hpm
        simpa using h5
      · intro _
        rfl
    | some p =>
      have hpm := List.mem_of_find?_eq_some hf
      have hpid : p.id = pid := by simpa using List.find?_some hf
      constructor
      · intro habs
        simp at habs
      · intro hall
        exact absurd hpid (hall p hpm)
  · intro si hok
    simp only [switchProfile, hp, Option.getD_some, if_neg hcond,
      User.FindProfile] at hok
    cases hf : u.profiles.find? (fun p => p.id == pid) with
    | none =>
      rw [hf] at hok
      simp at hok
    | some p =>
      rw [hf] at hok
      simp only [GoResult.ok.injEq] at hok
      simp only [User.FindProfile]
      rw [hf, ← hok]
  · intro r lk
    by_cases hc : r.tokenId = "" ∨ r.profile = none
    · simp [switchProfile, hc]
    · cases lk with
      | none => simp [switchProfile, hc]
      | some w =>
        cases hf : w.FindProfile (r.profile.getD "") with
        | none => simp [switchProfile, hc, hf]
        | some p => simp [switchProfile, hc, hf]

theorem c7_switch_profile_witness :
    sampleUser.FindProfile "p1"
      = some ({ userId := "u1", roles := ["PARTICIPANT"], instanceId := "inst1"
                accountId := "a@x.com", accountConfirmed := false
                profiles := [sampleProfile], selectedProfile := sampleProfile
                preferredLanguage := "en" } : UserAuthInfo).selectedProfile :=
  (c7_switch_profile { tokenInstanceId := "inst1", tokenId := "u1", profile := some "p1" }
      sampleUser "p1" (by decide) rfl).2.1
    { userId := "u1", roles := ["PARTICIPANT"], instanceId := "inst1"
      accountId := "a@x.com", accountConfirmed := false
      profiles := [sampleProfile], selectedProfile := sampleProfile
      preferredLanguage := "en" }
    (by decide)

/-- **C10**: on the successful-credential path, LoginWithEmail takes the
first element of the account's profiles without an emptiness guard: when
the stored account has at least one profile the access is safe and the
response selects that first profile; when the account has zero profiles
the handler panics on the out-of-bounds index — it does not return an
error value. -/
theorem c10_selected_profile_access (req : LoginWithEmailMsg) (env : LoginEnv)
    (u : User)
    (h1 : req.email ≠ "") (h2 : req.password ≠ "")
    (hl : env.lookup = some u) (he : env.pwErr = false) (hm : env.pwMatch = true)
    (hu : env.updateLoginOk = true) :
    (∀ p rest, u.profiles = p :: rest →
      (loginWithEmail req env).1
        = .ok { userId := u.id
                roles := u.roles
                instanceId := if req.instanceId = "" then "default" else req.instanceId
                accountId := displayName u
                accountConfirmed := decide (u.account.accountConfirmedAt > 0)
                profiles := u.profiles
                selectedProfile := p
                preferredLanguage := u.account.preferredLanguage })
    ∧ (u.profiles = [] →
        (loginWithEmail req env).1 = .panicked
        ∧ ∀ e, (loginWithEmail req env).1 ≠ .err e) := by
  constructor
  · intro p rest hpr
    simp [loginWithEmail, h1, h2, hl, he, hm, hu, hpr]
  · intro hnil
    constructor
    · simp [loginWithEmail, h1, h2, hl, he, hm, hu, hnil]
    · intro e
      simp [loginWithEmail, h1, h2, hl, he, hm, hu, hnil]

theorem c10_selected_profile_access_witness :
    (loginWithEmail { email := "a@x.com", password := "Str0ngPass1", instanceId := "t1" }
        { lookup := some sampleUser, pwErr := false, pwMatch := true
          updateLoginOk := true, updateErrMsg := "" }).1
      = .ok { userId := "u1", roles := ["PARTICIPANT"], instanceId := "t1"
              accountId := "", accountConfirmed := false
              profiles := [sampleProfile], selectedProfile := sampleProfile
              preferredLanguage := "en" } := by
  have h := (c10_selected_profile_access
      { email := "a@x.com", password := "Str0ngPass1", instanceId := "t1" }
      { lookup := some sampleUser, pwErr := false, pwMatch := true
        updateLoginOk := true, updateErrMsg := "" }
      sampleUser (by decide) (by decide) rfl rfl rfl rfl).1
    sampleProfile [] (by decide)
  simpa using h

/-- **C4**: for a signup input passing the email-shape and
password-strength checks, a successful SignupWithEmail returns a session
info with `confirmed = false`, role set exactly PARTICIPANT, exactly one
profile whose nickname is the login identifier, and that profile
selected; the account record handed to the store has
`confirmedAtEpoch = 0`. -/
theorem c4_provision_result (req : SignupWithEmailMsg) (env : SignupEnv) (now : Int)
    (digest uid : String)
    (h1 : checkEmailFormat req.email = true)
    (h2 : checkPasswordFormat req.password = true)
    (hh : env.hashResult = some digest)
    (ha : env.addUserResult = some uid) :
    ∃ si u, signupWithEmail req env now = (.ok si, some u)
      ∧ si.accountConfirmed = false
      ∧ si.roles = ["PARTICIPANT"]
      ∧ si.profiles = [{ id := env.newProfileId, nickname := req.email
                         consentConfirmedAt := now, avatarId := "default" }]
      ∧ si.selectedProfile = { id := env.newProfileId, nickname := req.email
                               consentConfirmedAt := now, avatarId := "default" }
      ∧ u.account.accountConfirmedAt = 0 := by
  have hdn : displayName (signupNewUser req digest env now) = "" :=
    displayName_participant _ (signupNewUser_roles _ _ _ _)
  refine ⟨{ userId := uid
            roles := ["PARTICIPANT"]
            instanceId := if req.instanceId = "" then "default" else req.instanceId
            accountId := ""
            accountConfirmed := false
            profiles := [{ id := env.newProfileId, nickname := req.email
                           consentConfirmedAt := now, avatarId := "default" }]
            selectedProfile := { id := env.newProfileId, nickname := req.email
                                 consentConfirmedAt := now, avatarId := "default" }
            preferredLanguage := req.preferredLanguage },
    signupNewUser req digest env now, ?_, rfl, rfl, rfl, rfl, ?_⟩
  · simp [signupWithEmail, h1, h2, hh, ha, signupNewUser_profiles,
      signupNewUser_roles, signupNewUser_account, hdn]
  · simp [signupNewUser_account]

theorem c4_provision_result_witness :
    checkEmailFormat "a@x.com" = true ∧ checkPasswordFormat "Str0ngP@ss!" = true
    ∧ ∃ si u,
        signupWithEmail
            { email := "a@x.com", password := "Str0ngP@ss!", instanceId := "t1"
              preferredLanguage := "en", wantsNewsletter := false }
            { hashResult := some "digest", hashErrMsg := "", newProfileId := "p9"
              newContactId := "c9", addUserResult := some "uid9", addErrMsg := "" }
            7
          = (.ok si, some u)
        ∧ si.accountConfirmed = false
        ∧ si.roles = ["PARTICIPANT"]
        ∧ si.profiles = [{ id := "p9", nickname := "a@x.com"
                           consentConfirmedAt := 7, avatarId := "default" }]
        ∧ si.selectedProfile = { id := "p9", nickname := "a@x.com"
                                 consentConfirmedAt := 7, avatarId := "default" }
        ∧ u.account.accountConfirmedAt = 0 :=
  ⟨by decide, by decide,
    c4_provision_result
      { email := "a@x.com", password := "Str0ngP@ss!", instanceId := "t1"
        preferredLanguage := "en", wantsNewsletter := false }
      { hashResult := some "digest", hashErrMsg := "", newProfileId := "p9"
        newContactId := "c9", addUserResult := some "uid9", addErrMsg := "" }
      7 "digest" "uid9" (by decide) (by decide) rfl rfl⟩

lemma filter_idem {α : Type} (l : List α) (p : α → Bool) :
    (l.filter p).filter p = l.filter p := by
  rw [List.filter_filter]
  simp

lemma filter_not_self_nil {α : Type} (l : List α) (p : α → Bool) :
    (l.filter (fun a => !(p a))).filter p = [] := by
  rw [List.filter_filter]
  simp

lemma sweepRun_nofail_store (cutoff : Int) (instances : List String) :
    ∀ (store : String → List User) (t : String),
    (sweepRun instances (fun _ => false) cutoff store).1 t
      = if t ∈ instances
        then (store t).filter (fun u => !(expiredAccount cutoff u))
        else store t := by
  induction instances with
  | nil =>
    intro store t
    simp [sweepRun]
  | cons inst rest ih =>
    intro store t
    simp only [sweepRun, Bool.false_eq_true, if_false, deleteUnverifiedUsers]
    rw [ih]
    by_cases ht : t ∈ rest
    · by_cases te : t = inst
      · subst te
        simp [ht, filter_idem]
      · simp [ht, te]
    · by_cases te : t = inst
      · subst te
        simp [ht]
      · simp [ht, te]

lemma sweepRun_clean_log (cutoff : Int) (instances : List String) :
    ∀ store : String → List User,
    (∀ t ∈ instances, (store t).filter (expiredAccount cutoff) = []) →
    (sweepRun instances (fun _ => false) cutoff store).2
      = instances.map (fun t => (t, some 0)) := by
  induction instances with
  | nil =>
    intro store _
    simp [sweepRun]
  | cons inst rest ih =>
    intro store h
    have hinst := h inst (List.mem_cons_self inst rest)
    simp only [sweepRun, Bool.false_eq_true, if_false, deleteUnverifiedUsers,
      List.map_cons]
    have hclean : ∀ t ∈ rest,
        ((fun t => if t = inst
            then (store inst).filter (fun u => !(expiredAccount cutoff u))
            else store t) t).filter (expiredAccount cutoff) = [] := by
      intro t htr
      by_cases te : t = inst
      · subst te
        simp only [if_pos rfl]
        exact filter_not_self_nil _ _
      · simp only [if_neg te]
        exact h t (List.mem_cons_of_mem inst htr)
    rw [hinst, ih _ hclean]
    rfl

/-- **C8**: a sweep at time `now` with retention `threshold`, with every
per-tenant delete call succeeding, removes from each enumerated tenant
exactly the accounts that are unconfirmed and created before
`now - threshold` (confirmed accounts and younger unconfirmed accounts
stay, tenants outside the enumeration are untouched), and a second run
with the same clock reports zero deletions for every tenant. -/
theorem c8_sweep_exact_and_idempotent (instances : List String)
    (now threshold : Int) (store : String → List User) :
    (∀ t, (cleanUpUnverifiedUsers instances (fun _ => false) now threshold store).1 t
        = if t ∈ instances
          then (store t).filter (fun u => !(expiredAccount (now - threshold) u))
          else store t)
    ∧ (cleanUpUnverifiedUsers instances (fun _ => false) now threshold
         (cleanUpUnverifiedUsers instances (fun _ => false) now threshold store).1).2
       = instances.map (fun t => (t, some 0)) := by
  constructor
  · intro t
    exact sweepRun_nofail_store (now - threshold) instances store t
  · apply sweepRun_clean_log
    intro t ht
    simp only [cleanUpUnverifiedUsers]
    rw [sweepRun_nofail_store (now - threshold) instances store t, if_pos ht]
    exact filter_not_self_nil _ _

/-- **C9**: the sweep performs the per-tenant deletion call for every
tenant of the enumerated sequence, in order, whatever subset of
per-tenant calls fails — a failing tenant never prevents the deletion
call for the remaining tenants. -/
theorem c9_sweep_failure_isolation (instances : List String)
    (failing : String → Bool) (cutoff : Int) (store : String → List User) :
    (sweepRun instances failing cutoff store).2.map Prod.fst = instances := by
  induction instances generalizing store with
  | nil => simp [sweepRun]
  | cons inst rest ih =>
    by_cases hf : failing inst
    · simp [sweepRun, hf, ih]
    · simp [sweepRun, hf, ih]
